import Mathlib

/-!
Verification of the rpilot hardware-abstraction layer (`rpilot/core/hardware.py`).

The Python source is shallowly embedded below.  Machine integers are modelled
as `Int`/`Nat`, CPython floats as exact rationals (`ℚ`), fallible code returns
`Except`, and the threaded loops (`Wheel._record`, `LED_RGB.threaded_color_series`)
become explicit step functions over state records.  Two Python quirks are
modelled explicitly because the source relies on them:

* truthiness tests on `threading.Event` objects (`while self.quit_evt:`,
  `if self.measure_evt:`) — a `threading.Event` instance defines no
  `__nonzero__`, so it is always truthy regardless of its internal flag;
* exception and warning objects that the source constructs without raising
  (`Exception(...)` / `Warning(...)` on a statement line) — these have no
  control-flow effect, the code simply continues.
-/

namespace Autopilot

/-! ### Pin numbering tables (hardware.py lines 84-104) -/

/-- `BOARD_TO_BCM`: mapping from board (physical) numbering to BCM numbering,
transcribed from the dict literal in hardware.py. -/
def BOARD_TO_BCM : List (Nat × Nat) :=
  [(3, 2), (5, 3), (7, 4), (8, 14), (10, 15),
   (11, 17), (12, 18), (13, 27), (15, 22), (16, 23),
   (18, 24), (19, 10), (21, 9), (22, 25), (23, 11),
   (24, 8), (26, 7), (29, 5), (31, 6), (32, 12),
   (33, 13), (35, 19), (36, 16), (37, 26), (38, 20),
   (40, 21)]

/-- `BCM_TO_BOARD = dict([reversed(i) for i in BOARD_TO_BCM.items()])`. -/
def BCM_TO_BOARD : List (Nat × Nat) :=
  BOARD_TO_BCM.map (fun p => (p.2, p.1))

/-! ### Python-semantics helpers -/

/-- A `threading.Event`: a boolean flag with `set`/`clear`/`is_set`. -/
structure PyEvent where
  isSet : Bool
deriving DecidableEq

/-- Truthiness of a `threading.Event` object.  The class defines no
`__nonzero__`, so `bool(event)` is `True` regardless of the internal flag.
The source writes `while self.quit_evt:` and `if self.measure_evt:`, which
evaluate this, not `is_set()`. -/
def pyTruthyEvent (_ : PyEvent) : Bool := true

/-- Truthiness of an optional string argument (`if not manual_trigger:`):
`None` and the empty string are falsy. -/
def pyTruthyOptStr : Option String → Bool
  | none => false
  | some s => s.length != 0

/-- Truthiness of an optional float argument (`if timed:` / `if duration:`):
`None` and `0.0` are falsy. -/
def pyTruthyOptQ : Option ℚ → Bool
  | none => false
  | some q => decide (q ≠ 0)

/-- Python `int()` applied to a float: truncation toward zero. -/
def pyInt (q : ℚ) : ℤ := if q < 0 then ⌈q⌉ else ⌊q⌋

/-! ### Beambreak (hardware.py lines 161-270) -/

/-- pigpio edge constants: `RISING_EDGE = 0`, `FALLING_EDGE = 1`,
`EITHER_EDGE = 2`.  `TRIGGER_MAP` maps the option strings to them. -/
def TRIGGER_MAP : List (String × Nat) :=
  [("U", 0), ("D", 1), ("B", 2)]

/-- What a registered pigpio callback invokes on trigger: either the
caller-supplied function (identified by a numeric id in the model) or the
device's internal `event.set`. -/
inductive CbTarget
  | fnId (n : Nat)
  | eventSet
deriving DecidableEq

/-- A live `pigpio.callback` handle as stored in `Beambreak.callbacks`. -/
structure CbHandle where
  pin : Nat
  edge : Nat
  target : CbTarget
deriving DecidableEq

/-- State of a `Beambreak` device: BCM pin, default trigger edge, whether a
`threading.Event` was supplied at construction, and the callback registry. -/
structure BeambreakState where
  pin : Nat
  trigger_ud : Nat
  event : Bool
  callbacks : List CbHandle
deriving DecidableEq

/-- `Beambreak.clear_cb`: tries `cancel()` on every handle (swallowing
errors) and resets the registry to the empty list. -/
def clear_cb (s : BeambreakState) : BeambreakState :=
  { s with callbacks := [] }

/-- `Beambreak.assign_cb(callback_fn, add=False, evented=False, manual_trigger=None)`.

Mirrors the source line by line: if `add` is false the registry is cleared
first; a falsy `manual_trigger` keeps the default edge, otherwise
`TRIGGER_MAP[manual_trigger]` is looked up (`KeyError` = `.error`); if
`evented` and an event exists, an `event.set` callback is appended; if
`evented` and no event exists, `Exception('We have no internal event to
set!')` is *constructed but not raised* (returned in the second component)
and execution continues; finally the main callback is appended. -/
def assign_cb (s : BeambreakState) (callback_fn : Nat) (add evented : Bool)
    (manual_trigger : Option String) :
    Except String (BeambreakState × List String) :=
  let s1 := if add = false then clear_cb s else s
  let edge? : Except String Nat :=
    if pyTruthyOptStr manual_trigger = false then .ok s1.trigger_ud
    else match manual_trigger.bind (fun k => TRIGGER_MAP.lookup k) with
      | some e => .ok e
      | none => .error "KeyError"
  match edge? with
  | .error e => .error e
  | .ok trigger_ud =>
    let (s2, constructed) :=
      if evented = true ∧ s1.event = true then
        ({ s1 with callbacks := s1.callbacks ++ [⟨s1.pin, trigger_ud, .eventSet⟩] }, [])
      else if evented = true ∧ s1.event = false then
        (s1, ["We have no internal event to set!"])
      else (s1, [])
    .ok ({ s2 with callbacks := s2.callbacks ++ [⟨s2.pin, trigger_ud, .fnId callback_fn⟩] },
         constructed)

/-- A `Beambreak` constructed without an event (`event=None`), as used by the
error-handling claim: board pin 7 becomes BCM 4, `trigger_ud='D'` maps to
falling edge 1, with two stale handles left in the registry. -/
def bbNoEvent : BeambreakState :=
  { pin := 4, trigger_ud := 1, event := false,
    callbacks := [⟨4, 1, .fnId 1⟩, ⟨4, 1, .fnId 2⟩] }

/-! ### LED_RGB (hardware.py lines 288-501) -/

/-- An RGB color trio, each channel 0-255. -/
structure Color where
  r : Nat
  g : Nat
  b : Nat
deriving DecidableEq

/-- The per-channel PWM duty values currently written to pigpio. -/
structure Duty where
  r : Nat
  g : Nat
  b : Nat
deriving DecidableEq

/-- State of an `LED_RGB`: the wiring (`'anode'`/`'cathode'`), the
`flash_block` event gating external color sets, the stashed
`stored_color` (an empty dict models as `none`), and the current duty. -/
structure LEDState where
  common : String
  flash_block : PyEvent
  stored_color : Option Color
  duty : Duty
deriving DecidableEq

/-- Writing a color to the PWM channels: `255 - v` per channel for common
anode, `v` for common cathode; any other `common` value matches neither
branch and leaves the duty unchanged. -/
def applyPWM (common : String) (d : Duty) (c : Color) : Duty :=
  if common = "anode" then ⟨255 - c.r, 255 - c.g, 255 - c.b⟩
  else if common = "cathode" then ⟨c.r, c.g, c.b⟩
  else d

/-- The tail of `LED_RGB.set_color` once a color dict has been obtained:
if this is an external call (`internal=False`) and `flash_block` is clear,
the color is stashed into `stored_color` and nothing else happens;
otherwise the duty is written and, if `timed` is truthy, an off-timer of
`timed/1000` seconds is started (returned as the second component). -/
def set_color_go (s : LEDState) (color : Color) (timed : Option ℚ)
    (internal : Bool) : LEDState × Option ℚ :=
  if internal = false ∧ s.flash_block.isSet = false then
    ({ s with stored_color := some color }, none)
  else
    ({ s with duty := applyPWM s.common s.duty color },
     if pyTruthyOptQ timed then timed.map (fun t => t / 1000) else none)

/-- `LED_RGB.set_color(col, timed, stored, internal)`.

With `stored=True` the stashed color is taken (and the stash emptied) or,
if the stash is empty, the call returns quietly.  With `stored=False` the
color comes from `col`; a missing/malformed color is a constructed-only
`Warning` followed by `return`.  (The `r`,`g`,`b` keyword variant builds
the same color dict as the `col` variant and is subsumed by it.) -/
def set_color (s : LEDState) (col : Option Color) (timed : Option ℚ)
    (stored internal : Bool) : LEDState × Option ℚ :=
  if stored = true then
    match s.stored_color with
    | some c => set_color_go { s with stored_color := none } c timed internal
    | none => (s, none)
  else
    match col with
    | some c => set_color_go s c timed internal
    | none => (s, none)

/-- `duration` argument of `color_series`: a scalar or a per-step list. -/
inductive PyDuration
  | scalar (q : ℚ)
  | perStep (qs : List ℚ)
deriving DecidableEq

/-- `LED_RGB.threaded_color_series(colors, duration)` run to completion with
no interleaved external calls: clears `flash_block`, applies each color with
`internal=True` (sleeping between steps), sets `flash_block`, then calls
`set_color(stored=True)`.  A mismatched per-step duration list constructs an
`Exception` (not raised) and returns early — with `flash_block` still
cleared and no color applied. -/
def threaded_color_series (s : LEDState) (colors : List Color)
    (duration : PyDuration) : LEDState :=
  let s1 : LEDState := { s with flash_block := ⟨false⟩ }
  let finish : LEDState → LEDState := fun s2 =>
    (set_color { s2 with flash_block := ⟨true⟩ } none none true false).1
  match duration with
  | .scalar _ =>
    finish (colors.foldl (fun st c => (set_color st (some c) none false true).1) s1)
  | .perStep ds =>
    if colors.length = ds.length then
      finish (colors.foldl (fun st c => (set_color st (some c) none false true).1) s1)
    else s1

/-- An event in an interleaved execution of `threaded_color_series` with
concurrent external `set_color` calls: either the sequencer applying its
next color (`internal=True`) or an external caller requesting one
(`internal=False`). -/
inductive LEDEv
  | seqStep (c : Color)
  | extSet (c : Color)
deriving DecidableEq

/-- One interleaving step. -/
def led_step (s : LEDState) : LEDEv → LEDState
  | .seqStep c => (set_color s (some c) none false true).1
  | .extSet c => (set_color s (some c) none false false).1

/-- A full sequencing run with external calls interleaved: `flash_block`
is cleared, the events run in order, `flash_block` is set, and
`set_color(stored=True)` restores any stash — exactly the structure of
`threaded_color_series` with the sleeps replaced by interleaving points. -/
def run_with_external (s : LEDState) (evs : List LEDEv) : LEDState :=
  let s2 := evs.foldl led_step { s with flash_block := ⟨false⟩ }
  (set_color { s2 with flash_block := ⟨true⟩ } none none true false).1

/-- The colors requested externally during a run, in order. -/
def extColors (evs : List LEDEv) : List Color :=
  evs.filterMap (fun e => match e with | .extSet c => some c | _ => none)

/-- The colors the sequencer itself applies during a run, in order. -/
def seqColors (evs : List LEDEv) : List Color :=
  evs.filterMap (fun e => match e with | .seqStep c => some c | _ => none)

/-- `LED_RGB.flash(duration, frequency, colors)`: computes
`n_rep = int(duration/1000*frequency)` flashes and a per-step duration of
`(1/frequency)*1000` ms, then hands `colors*n_rep` to `color_series`.
The returned pair is exactly the `(colors, duration)` argument pair passed
to `color_series`. -/
def flash (duration frequency : ℚ) (colors : List Color) : List Color × ℚ :=
  ((List.replicate (pyInt (duration / 1000 * frequency)).toNat colors).flatten,
   1 / frequency * 1000)

/-- An idle `LED_RGB` (common anode) currently showing color `(10,10,10)`:
duty `255-10 = 245` per channel, `flash_block` set, empty stash. -/
def idleLED : LEDState :=
  { common := "anode", flash_block := ⟨true⟩, stored_color := none,
    duty := ⟨245, 245, 245⟩ }

/-! ### Solenoid (hardware.py lines 503-601) -/

/-- An argument value passed as `duration` to `Solenoid.open`: either a
number (which `float()` converts to itself — numeric strings are subsumed
by their value) or a value on which `float()` raises, carrying only its
truthiness. -/
inductive PyArg
  | num (q : ℚ)
  | junk (truthy : Bool)
deriving DecidableEq

/-- Truthiness of the optional `duration` argument (`if duration:`). -/
def pyTruthyArg : Option PyArg → Bool
  | none => false
  | some (.num q) => decide (q ≠ 0)
  | some (.junk t) => t

/-- State of a `Solenoid`: BCM pin and the stored open duration.
`__init__` stores `float(duration)/1000` — the configured duration is given
in milliseconds and kept in seconds. -/
structure SolenoidState where
  pin : Nat
  duration : ℚ
deriving DecidableEq

/-- `Solenoid.__init__(pin, duration=100)`: the board pin is translated via
`BOARD_TO_BCM` (an unmapped pin is a construction-time `KeyError`), and the
millisecond duration is stored divided by 1000 (seconds). -/
def solenoidInit (pin : Nat) (duration : ℚ) : Except String SolenoidState :=
  match BOARD_TO_BCM.lookup pin with
  | some bcm => .ok { pin := bcm, duration := duration / 1000 }
  | none => .error "KeyError"

/-- Observable result of `Solenoid.open`: the GPIO writes in order, the
seconds slept between them, and whether the fallback `Warning` was
constructed. -/
structure OpenResult where
  writes : List (Nat × Nat)
  sleep : ℚ
  warned : Bool
deriving DecidableEq

/-- `Solenoid.open(duration=None)`: a truthy override is converted with
`float()` — on success the *raw value* is slept (no `/1000` is applied to
the override, unlike the constructor), on failure a `Warning` is
constructed and the stored default is used; a falsy/absent override uses
the stored default.  The pin is written high, the thread sleeps, the pin is
written low. -/
def solenoidOpen (s : SolenoidState) (duration : Option PyArg) : OpenResult :=
  let durWarn : ℚ × Bool :=
    if pyTruthyArg duration then
      match duration with
      | some (.num q) => (q, false)
      | _ => (s.duration, true)
    else (s.duration, false)
  { writes := [(s.pin, 1), (s.pin, 0)], sleep := durWarn.1, warned := durWarn.2 }

/-! ### Wheel (hardware.py lines 604-893) -/

/-- One row of the `MOVE_DTYPE` record array: a signed velocity (`i4`), a
direction label (`REL_X`/`REL_Y`), and a timestamp. -/
structure Move where
  vel : Int
  dir : String
  timestamp : ℚ
deriving DecidableEq

/-- A raw event delivered by `self.mouse.read()`. -/
structure RawEvent where
  state : Int
  code : String
  timestamp : ℚ
deriving DecidableEq

/-- The comprehension in `_record` building a `MOVE_DTYPE` batch: keep only
events whose code is `REL_X` or `REL_Y`. -/
def parse_events (events : List RawEvent) : List Move :=
  (events.filter (fun e => e.code = "REL_X" ∨ e.code = "REL_Y")).map
    (fun e => ⟨e.state, e.code, e.timestamp⟩)

/-- `np.sum(move['vel'][move['dir'] == d])`. -/
def sumVel (move : List Move) (d : String) : Int :=
  (move.filter (fun m => m.dir = d)).foldl (fun a m => a + m.vel) 0

/-- `Wheel.THRESH_TYPES`. -/
def THRESH_TYPES : List String := ["dist", "x", "y", "vel"]

/-- `Wheel.MODES`. -/
def MODES : List String := ["vel_total", "steady", "dist", "timed"]

/-- `Wheel.calc_move(move, thresh_type)` with the `thresh_type=None` default
already resolved to the wheel's configured type by the caller.  The float
`np.sqrt` is abstracted as a parameter `sq`.  For `'x'`/`'y'` the per-axis
velocity sum is returned; for `'dist'` the Euclidean norm
`sq(x_dist**2 + y_dist**2)`; for any other type — including `'vel'`, which
`THRESH_TYPES` lists — no branch binds `distance` and the trailing
`return distance` raises `NameError`. -/
def calc_move (sq : ℚ → ℚ) (move : List Move) (ttype : String) : Except String ℚ :=
  if ttype = "x" then .ok ((sumVel move "REL_X" : Int) : ℚ)
  else if ttype = "y" then .ok ((sumVel move "REL_Y" : Int) : ℚ)
  else if ttype = "dist" then
    .ok (sq (((sumVel move "REL_X" : Int) : ℚ) ^ 2 + ((sumVel move "REL_Y" : Int) : ℚ) ^ 2))
  else .error "NameError: distance referenced before assignment"

/-- State of a `Wheel`.  `thresh_val` is the numeric accumulator; in
`'steady'` mode the source type-puns it into a sample array, but that mode's
evaluation raises before the value is ever reused numerically (see
`check_thresh`), so the numeric field suffices. -/
structure WheelState where
  fs : ℚ
  update_dur : ℚ
  thresh : ℚ
  thresh_val : ℚ
  thresh_type : String
  mode : String
  integrate_dur : ℚ
  quit_evt : PyEvent
  measure_evt : PyEvent
  measure_time : ℚ
  gpio_trig : Bool
deriving DecidableEq

/-- `Wheel.__init__(fs, thresh, thresh_type, mode, integrate_dur)` (input
sourcing and networking omitted): `update_dur = 1/fs`, `thresh_val = 0.0`,
`quit_evt` is created *and set*, `measure_evt` is created cleared (the
device starts disarmed).  The membership check on `thresh_type` only
constructs a `ValueError` without raising it, so every string is accepted. -/
def wheelInit (fs thresh : ℚ) (thresh_type mode : String) (integrate_dur : ℚ) : WheelState :=
  { fs := fs, update_dur := 1 / fs, thresh := thresh, thresh_val := 0,
    thresh_type := thresh_type, mode := mode, integrate_dur := integrate_dur,
    quit_evt := ⟨true⟩, measure_evt := ⟨false⟩, measure_time := 0,
    gpio_trig := false }

/-- `Wheel.check_thresh(move)`: dispatch on `self.mode`.

* `'vel_total'`: fire iff the instantaneous batch value exceeds `thresh`.
* `'steady'`: the source calls `np.concatenate(self.thresh_val, move)`,
  passing the new batch where the `axis` parameter goes — that call raises,
  so the branch is modelled as the raised error.
* `'dist'`: the batch value is added to the running `thresh_val`; fire iff
  the new total exceeds `thresh` (strictly, `>`).
* any other mode: a `Warning` is constructed (not raised) and `do_trigger`
  stays `False`. -/
def check_thresh (sq : ℚ → ℚ) (w : WheelState) (move : List Move) :
    Except String (WheelState × Bool) :=
  if w.mode = "vel_total" then
    (calc_move sq move w.thresh_type).map (fun u => (w, decide (u > w.thresh)))
  else if w.mode = "steady" then
    .error "TypeError: np.concatenate given an array as axis"
  else if w.mode = "dist" then
    (calc_move sq move w.thresh_type).map (fun u =>
      ({ w with thresh_val := w.thresh_val + u }, decide (w.thresh_val + u > w.thresh)))
  else
    .ok (w, false)

/-- `Wheel.thresh_trig()`: pulses the configured GPIO pins (ignored by the
model — no observable state here) and clears `measure_evt`. -/
def thresh_trig (w : WheelState) : WheelState :=
  { w with measure_evt := ⟨false⟩ }

/-- `Wheel.l_measure(value)`: optionally update `mode` (a value outside
`MODES` only constructs a `Warning` and keeps the previous mode) and
`thresh`, reset the accumulator (`0.0` outside `'steady'` mode), record the
time, and set `measure_evt` — arming the device. -/
def l_measure (w : WheelState) (mode? : Option String) (thresh? : Option ℚ)
    (now : ℚ) : WheelState :=
  let w1 := match mode? with
    | some m => if m ∈ MODES then { w with mode := m } else w
    | none => w
  let w2 := match thresh? with
    | some t => { w1 with thresh := t }
    | none => w1
  let w3 := if w2.mode = "steady" then w2 else { w2 with thresh_val := 0 }
  { w3 with measure_time := now, measure_evt := ⟨true⟩ }

/-- `Wheel.l_clear(value)`: clear `measure_evt` (disarm without firing). -/
def l_clear (w : WheelState) : WheelState :=
  { w with measure_evt := ⟨false⟩ }

/-- `Wheel.release()`: clear `quit_evt` — the intended termination signal
for the polling thread. -/
def wheelRelease (w : WheelState) : WheelState :=
  { w with quit_evt := ⟨false⟩ }

/-- `Wheel.l_stop(value)`: clear `measure_evt`, then `release()`. -/
def l_stop (w : WheelState) : WheelState :=
  wheelRelease { w with measure_evt := ⟨false⟩ }

/-- The loop-local state of `Wheel._record`: the wheel, the accumulated
`moves` buffer, and `last_update`. -/
structure RecordState where
  w : WheelState
  moves : List Move
  last_update : ℚ
deriving DecidableEq

/-- A `CONTINUOUS` telemetry event sent over the node:
`{'x': x_vel, 'y': y_vel, 't': nowtime}`. -/
structure Telemetry where
  x : ℚ
  y : ℚ
  t : ℚ
deriving DecidableEq

/-- The observable output of one polling iteration: the telemetry event
emitted at a sample boundary (if any) and whether `thresh_trig` fired. -/
structure StepOut where
  telemetry : Option Telemetry
  fired : Bool
deriving DecidableEq

/-- The loop condition of `_record`: `while self.quit_evt:` — truthiness of
the Event object, not `is_set()`. -/
def record_loop_cond (w : WheelState) : Bool := pyTruthyEvent w.quit_evt

/-- Lines 723-728 of `_record`: the threshold block, guarded by
`if self.measure_evt:` — truthiness of the Event object, not `is_set()`.
On `do_trigger` it calls `thresh_trig()` followed by
`measure_evt.clear()`. -/
def thresh_block (sq : ℚ → ℚ) (w : WheelState) (move : List Move) :
    Except String (WheelState × Bool) :=
  if pyTruthyEvent w.measure_evt then
    match check_thresh sq w move with
    | .error e => .error e
    | .ok (w1, do_trigger) =>
      if do_trigger then .ok ({ thresh_trig w1 with measure_evt := ⟨false⟩ }, true)
      else .ok (w1, false)
  else .ok (w, false)

/-- Lines 733-745 of `_record`: if `nowtime - last_update > update_dur`,
per-axis velocities of the whole buffer are computed with
`calc_move(moves, 'y')` / `calc_move(moves, 'x')`, a `CONTINUOUS` event is
sent, and the buffer and timer reset. -/
def telemetry_block (sq : ℚ → ℚ) (w : WheelState) (moves : List Move)
    (last_update now : ℚ) (fired : Bool) :
    Except String (RecordState × StepOut) :=
  if now - last_update > w.update_dur then
    match calc_move sq moves "y" with
    | .error e => .error e
    | .ok y_vel =>
      match calc_move sq moves "x" with
      | .error e => .error e
      | .ok x_vel => .ok (⟨w, [], now⟩, ⟨some ⟨x_vel, y_vel, now⟩, fired⟩)
  else .ok (⟨w, moves, last_update⟩, ⟨none, fired⟩)

/-- One iteration of the `while` body of `Wheel._record`, given the raw
events returned by the blocking `self.mouse.read()` and the current time:
the batch is parsed and appended to the buffer, the threshold block runs,
then the telemetry block.  An exception anywhere (e.g. a `NameError` from
`calc_move`) propagates and kills the thread. -/
def record_step (sq : ℚ → ℚ) (s : RecordState) (events : List RawEvent) (now : ℚ) :
    Except String (RecordState × StepOut) :=
  match thresh_block sq s.w (parse_events events) with
  | .error e => .error e
  | .ok (w, fired) =>
    telemetry_block sq w (s.moves ++ parse_events events) s.last_update now fired

/-- Iterating `_record`: each entry of `inputs` is one `mouse.read()` batch
together with the time observed in that iteration.  The body runs only
while `record_loop_cond` holds (as written, it always does); an exception
kills the thread and ends the run. -/
def record_run (sq : ℚ → ℚ) (s : RecordState) :
    List (List RawEvent × ℚ) → Except String (RecordState × List StepOut)
  | [] => .ok (s, [])
  | (es, t) :: rest =>
    if record_loop_cond s.w then
      match record_step sq s es t with
      | .error e => .error e
      | .ok (s1, out) =>
        match record_run sq s1 rest with
        | .error e => .error e
        | .ok (s2, outs) => .ok (s2, out :: outs)
    else .ok (s, [])

/-- Projection: the per-iteration `thresh_trig` firings of a run, or `none`
if the polling thread died on an exception. -/
def fired_list (r : Except String (RecordState × List StepOut)) : Option (List Bool) :=
  match r with
  | .ok (_, outs) => some (outs.map (fun o => o.fired))
  | .error _ => none

/-- Projection: the telemetry emitted by a single iteration, or `none` if
the iteration raised or emitted nothing. -/
def step_telemetry (r : Except String (RecordState × StepOut)) : Option Telemetry :=
  match r with
  | .ok (_, out) => out.telemetry
  | .error _ => none

/-- Projection: whether a single iteration fired `thresh_trig`. -/
def step_fired (r : Except String (RecordState × StepOut)) : Option Bool :=
  match r with
  | .ok (_, out) => some out.fired
  | .error _ => none

/-- A concrete square root usable for witnesses: the exact root on perfect
squares of rationals, `0` elsewhere; always nonnegative. -/
def ratSqrtPS (q : ℚ) : ℚ :=
  if 0 ≤ q ∧ (Nat.sqrt q.num.toNat) ^ 2 = q.num.toNat ∧ (Nat.sqrt q.den) ^ 2 = q.den then
    ((Nat.sqrt q.num.toNat : ℚ) / (Nat.sqrt q.den : ℚ))
  else 0

/-- Cumulative sums of a list: `cum_sums [a, b, c] = [a, a+b, a+b+c]`. -/
def cum_sums (l : List ℚ) : List ℚ := (l.scanl (· + ·) 0).tail

/-- The per-batch magnitude a `'dist'`-type wheel accumulates: the value of
`calc_move` on the parsed batch with `thresh_type='dist'`. -/
def batch_mag (sq : ℚ → ℚ) (events : List RawEvent) : ℚ :=
  ((calc_move sq (parse_events events) "dist").toOption).getD 0

/-- Decidable equality for `Except`, needed to evaluate the embedding's
results on concrete inputs. -/
instance {ε α : Type} [DecidableEq ε] [DecidableEq α] : DecidableEq (Except ε α) := fun x y =>
  match x, y with
  | .error e, .error f =>
    if h : e = f then isTrue (h ▸ rfl) else isFalse (fun c => h (Except.error.inj c))
  | .ok a, .ok b =>
    if h : a = b then isTrue (h ▸ rfl) else isFalse (fun c => h (Except.ok.inj c))
  | .error _, .ok _ => isFalse (fun c => Except.noConfusion c)
  | .ok _, .error _ => isFalse (fun c => Except.noConfusion c)

/-- A typical running wheel: `fs=20`, `thresh=100`, `thresh_type='x'`,
`mode='vel_total'`, `integrate_dur=3`. -/
def c1Wheel : WheelState := wheelInit 20 100 "x" "vel_total" 3

/-- A wheel armed for the `'dist'` threshold at 50 (as after
`MEASURE mode=dist thresh=50`), wrapped in a fresh `_record` loop state. -/
def c3State : RecordState :=
  ⟨{ wheelInit 20 100 "dist" "dist" 3 with thresh := 50, measure_evt := ⟨true⟩ }, [], 0⟩

/-- A wheel constructed with the accepted option `thresh_type='vel'`, in a
fresh `_record` loop state. -/
def velRecord : RecordState := ⟨wheelInit 20 100 "vel" "vel_total" 3, [], 0⟩

/-- The default on-color of `flash`. -/
def white : Color := ⟨255, 255, 255⟩

/-- The default off-color of `flash`. -/
def black : Color := ⟨0, 0, 0⟩

/-! ### Theorems -/

/-- Claim C8: for every board pin present in `BOARD_TO_BCM`, translating
board→BCM and then BCM→board via `BCM_TO_BOARD` returns the original board
pin — the table round trip is the identity (the table is injective, hence
a bijection onto its values). -/
theorem C8_pin_roundtrip (b : Nat) (hb : b ∈ BOARD_TO_BCM.map Prod.fst) :
    ((BOARD_TO_BCM.lookup b).bind fun n => BCM_TO_BOARD.lookup n) = some b := by
  have h : ∀ x ∈ BOARD_TO_BCM.map Prod.fst,
      ((BOARD_TO_BCM.lookup x).bind fun n => BCM_TO_BOARD.lookup n) = some x := by decide
  exact h b hb

/-- Witness for C8 at board pin 3 (BCM 2). -/
theorem C8_pin_roundtrip_witness :
    3 ∈ BOARD_TO_BCM.map Prod.fst ∧
    ((BOARD_TO_BCM.lookup 3).bind fun n => BCM_TO_BOARD.lookup n) = some 3 :=
  ⟨by decide, C8_pin_roundtrip 3 (by decide)⟩

/-- Claim C6: from any prior registry content, `clear_cb()` followed by
`assign_cb(fn)` with default arguments (`add=False`, `evented=False`,
`manual_trigger=None`) succeeds and leaves exactly one callback handle in
the registry. -/
theorem C6_clear_then_assign_leaves_one (s : BeambreakState) (fn : Nat) :
    (assign_cb (clear_cb s) fn false false none).map (fun r => r.1.callbacks.length)
      = .ok 1 := rfl

/-- Claim C9 (code evaluation): `assign_cb` with `evented=True` on a
Beambreak constructed without an event returns normally — the
`Exception('We have no internal event to set!')` is only constructed, never
raised — and the callback is still registered (a side effect the claim
says must not happen). -/
theorem C9_evented_without_event_not_raised :
    bbNoEvent.event = false ∧
    assign_cb bbNoEvent 7 false true none
      = .ok ({ bbNoEvent with callbacks := [⟨4, 1, .fnId 7⟩] },
             ["We have no internal event to set!"]) := by
  exact ⟨rfl, rfl⟩

/-- Claim C5 (code evaluation): for a `Solenoid(pin=7, duration=100)` the
pin is written high then low around the sleep in every case, and: with no
override the sleep is `0.1` s (the configured 100 ms); with an unparseable
override the fallback warning fires and the default 0.1 s is used; but with
the valid override `open(duration=100)` the sleep is `100` seconds — the
raw override value, not 100 ms (`100 ≠ 100/1000`): the override misses the
ms→s conversion the constructor applies. -/
theorem C5_open_override_units :
    solenoidInit 7 100 = .ok ⟨4, 1 / 10⟩ ∧
    solenoidOpen ⟨4, 1 / 10⟩ none = ⟨[(4, 1), (4, 0)], 1 / 10, false⟩ ∧
    solenoidOpen ⟨4, 1 / 10⟩ (some (.junk true)) = ⟨[(4, 1), (4, 0)], 1 / 10, true⟩ ∧
    solenoidOpen ⟨4, 1 / 10⟩ (some (.num 100)) = ⟨[(4, 1), (4, 0)], 100, false⟩ ∧
    (100 : ℚ) ≠ 100 / 1000 := by
  with_unfolding_all decide

/-- Claim C10: `'vel'` is listed in `THRESH_TYPES` (so the constructor
check accepts it), yet `calc_move` with `thresh_type='vel'` binds no result
in any branch and raises `NameError` at its `return` for every batch; in
particular the first polling iteration of a `'vel'`-typed wheel dies on
that error. -/
theorem C10_vel_type_name_error (sq : ℚ → ℚ) (move : List Move) :
    "vel" ∈ THRESH_TYPES ∧
    calc_move sq move "vel" = .error "NameError: distance referenced before assignment" ∧
    record_step ratSqrtPS velRecord [⟨1, "REL_X", 0⟩] 1
      = .error "NameError: distance referenced before assignment" := by
  refine ⟨by decide, rfl, by with_unfolding_all decide⟩

/-- Claim C1 (code evaluation): after `l_stop` (STOP) the termination
signal is given — `quit_evt` is cleared — but the loop guard
`while self.quit_evt:` tests the Event object's truthiness and stays true,
so the polling task does not exit: the very next iteration past a sample
boundary still emits a `CONTINUOUS` telemetry event. -/
theorem C1_stop_does_not_end_polling :
    (l_stop c1Wheel).quit_evt.isSet = false ∧
    record_loop_cond (l_stop c1Wheel) = true ∧
    step_telemetry (record_step ratSqrtPS ⟨l_stop c1Wheel, [], 0⟩ [⟨5, "REL_X", 1⟩] 1)
      = some ⟨5, 0, 1⟩ := by
  with_unfolding_all decide

/-- Claim C2 (code evaluation): a freshly constructed wheel is disarmed
(`measure_evt` is not set), yet its first sample batch is still threshold
evaluated and fires the trigger — the guard `if self.measure_evt:` tests
the Event object's truthiness, which is always true. -/
theorem C2_disarmed_still_evaluates :
    c1Wheel.measure_evt.isSet = false ∧
    step_fired (record_step ratSqrtPS ⟨c1Wheel, [], 0⟩ [⟨200, "REL_X", 0⟩] (1 / 100))
      = some true := by
  with_unfolding_all decide

/-- Counterexample to claim C3 as stated: on an armed `'dist'` wheel with
threshold 50, two batches of magnitudes 30 and 20 make the running total
*reach* 50 at the second batch, yet no trigger fires — the source fires
only on strict excess (`>`), not on reaching the threshold. -/
theorem C3_dist_reach_counterexample :
    cum_sums [batch_mag ratSqrtPS [⟨30, "REL_X", 0⟩], batch_mag ratSqrtPS [⟨20, "REL_X", 0⟩]]
      = [30, 50] ∧
    fired_list (record_run ratSqrtPS c3State
      [([⟨30, "REL_X", 0⟩], 0), ([⟨20, "REL_X", 0⟩], 0)])
      = some [false, false] := by
  set_option maxRecDepth 8000 in
  set_option maxHeartbeats 1000000 in
  with_unfolding_all decide

/-- Counterexample to claim C4 as stated: a sequence run during which no
color is requested does *not* restore the pre-sequence idle color — the
output is left at the last sequence step.  Idle duty was `(245,245,245)`
(color `(10,10,10)` on common anode); after
`color_series([[255,0,0],[0,255,0]], 250)` with no interleaved request the
duty is `(255,0,255)` (the anode image of `(0,255,0)`). -/
theorem C4_no_restore_counterexample :
    (threaded_color_series idleLED [⟨255, 0, 0⟩, ⟨0, 255, 0⟩] (.scalar 250)).duty
      = ⟨255, 0, 255⟩ ∧
    (⟨255, 0, 255⟩ : Duty) ≠ idleLED.duty := by decide

/-- Claim C7: `flash(duration, frequency, colors)` passes `color_series`
the list `colors` repeated `⌊duration*frequency/1000⌋` times and the
per-step duration `1000/frequency` ms (for nonnegative duration and
positive frequency, where `int()` truncation coincides with the floor). -/
theorem C7_flash_counts (d f : ℚ) (colors : List Color) (hd : 0 ≤ d) (hf : 0 < f) :
    flash d f colors
      = ((List.replicate (Int.toNat ⌊d * f / 1000⌋) colors).flatten, 1000 / f) := by
  have h1 : d / 1000 * f = d * f / 1000 := by ring
  have h2 : (0 : ℚ) ≤ d * f / 1000 := div_nonneg (mul_nonneg hd hf.le) (by norm_num)
  have h3 : 1 / f * 1000 = 1000 / f := by ring
  unfold flash pyInt
  rw [h1, h3, if_neg (not_lt.mpr h2)]

/-- Witness for C7 at `flash(1000, 20, [white, black])`: 20 repetitions of
the `(white, black)` pair — 40 steps — each lasting 50 ms. -/
theorem C7_flash_counts_witness :
    (0 : ℚ) ≤ 1000 ∧ (0 : ℚ) < 20 ∧
    flash 1000 20 [white, black] = ((List.replicate 20 [white, black]).flatten, 50) ∧
    ((List.replicate 20 [white, black]).flatten).length = 40 := by
  refine ⟨by norm_num, by norm_num, ?_, by decide⟩
  have h := C7_flash_counts 1000 20 [white, black] (by norm_num) (by norm_num)
  rw [h]
  norm_num
  rfl

/-- A sequencer step (`set_color` with `internal=True`) only rewrites the
duty. -/
theorem led_step_eq_seq (s : LEDState) (c : Color) :
    led_step s (.seqStep c) = { s with duty := applyPWM s.common s.duty c } := by
  simp [led_step, set_color, set_color_go]

/-- An external `set_color` while `flash_block` is clear only stashes. -/
theorem led_step_eq_ext (s : LEDState) (c : Color) (hb : s.flash_block.isSet = false) :
    led_step s (.extSet c) = { s with stored_color := some c } := by
  simp [led_step, set_color, set_color_go, hb]

/-- While `flash_block` is clear, an interleaved run folds the external
colors into the single-slot stash (last write wins) and the sequencer
colors into the duty. -/
theorem led_run_fold (s : LEDState) (evs : List LEDEv) (hb : s.flash_block.isSet = false) :
    evs.foldl led_step s =
      { s with stored_color := (extColors evs).foldl (fun _ c => some c) s.stored_color,
               duty := (seqColors evs).foldl (applyPWM s.common) s.duty } := by
  induction evs generalizing s with
  | nil => simp [extColors, seqColors]
  | cons e rest ih =>
    cases e with
    | seqStep c =>
      rw [List.foldl_cons, led_step_eq_seq,
        ih { s with duty := applyPWM s.common s.duty c } hb]
      simp [extColors, seqColors]
    | extSet c =>
      rw [List.foldl_cons, led_step_eq_ext s c hb,
        ih { s with stored_color := some c } hb]
      simp [extColors, seqColors]

/-- Writing a color forgets the previously written duty. -/
theorem applyPWM_applyPWM (common : String) (d : Duty) (c e : Color) :
    applyPWM common (applyPWM common d c) e = applyPWM common d e := by
  unfold applyPWM
  split_ifs <;> rfl

/-- Folding overwrites into a single slot keeps exactly the last value. -/
theorem foldl_stash_last (l : List Color) (a : Option Color) :
    l.foldl (fun _ c => some c) a = (l.getLast?).elim a some := by
  induction l generalizing a with
  | nil => rfl
  | cons c t ih =>
    rw [List.foldl_cons, ih]
    cases t with
    | nil => rfl
    | cons c2 t2 =>
      rw [List.getLast?_cons_cons]
      cases h : (c2 :: t2).getLast? with
      | none => exact absurd (List.getLast?_eq_none_iff.mp h) (by simp)
      | some x => rfl

/-- Folding duty writes leaves the duty of the last written color. -/
theorem foldl_applyPWM_last (common : String) (d : Duty) (l : List Color) :
    l.foldl (applyPWM common) d = (l.getLast?).elim d (applyPWM common d) := by
  induction l generalizing d with
  | nil => rfl
  | cons c t ih =>
    rw [List.foldl_cons, ih]
    cases t with
    | nil => rfl
    | cons c2 t2 =>
      rw [List.getLast?_cons_cons]
      cases h : (c2 :: t2).getLast? with
      | none => exact absurd (List.getLast?_eq_none_iff.mp h) (by simp)
      | some x => simp [Option.elim, applyPWM_applyPWM]

/-- Claim C4 (amended): in a sequence run with any interleaving of external
`set_color` requests, (1) no external request ever changes the duty at the
moment it is made, and (2) the final duty shows the last externally
requested color (single-slot stash, last write wins), or — if no color
was requested during the run — the last color of the sequence itself (not
the pre-sequence idle color), or the unchanged pre-run duty if the
sequence is empty too. -/
theorem C4_pending_color_semantics (s : LEDState) (evs : List LEDEv)
    (hstash : s.stored_color = none) :
    (∀ pre c post, evs = pre ++ LEDEv.extSet c :: post →
        (led_step (List.foldl led_step { s with flash_block := ⟨false⟩ } pre)
            (LEDEv.extSet c)).duty
          = (List.foldl led_step { s with flash_block := ⟨false⟩ } pre).duty) ∧
    (run_with_external s evs).duty =
      ((extColors evs).getLast?).elim
        (((seqColors evs).getLast?).elim s.duty (applyPWM s.common s.duty))
        (applyPWM s.common s.duty) := by
  constructor
  · intro pre c post _
    rw [led_run_fold { s with flash_block := ⟨false⟩ } pre rfl]
    rw [led_step_eq_ext _ c rfl]
  · unfold run_with_external
    rw [led_run_fold { s with flash_block := ⟨false⟩ } evs rfl]
    simp only [hstash]
    rw [foldl_stash_last, foldl_applyPWM_last]
    cases hext : (extColors evs).getLast? with
    | none =>
      cases hseq : (seqColors evs).getLast? with
      | none => simp [set_color, Option.elim]
      | some c => simp [set_color, Option.elim]
    | some c =>
      cases hseq : (seqColors evs).getLast? with
      | none => simp [set_color, set_color_go, Option.elim]
      | some c2 => simp [set_color, set_color_go, Option.elim, applyPWM_applyPWM]

/-- Witness for C4: an idle anode LED running one sequence step with one
interleaved external request. -/
theorem C4_pending_color_semantics_witness :
    idleLED.stored_color = none ∧
    ((∀ pre c post,
        [LEDEv.seqStep ⟨255, 0, 0⟩, LEDEv.extSet ⟨7, 8, 9⟩] = pre ++ LEDEv.extSet c :: post →
        (led_step (List.foldl led_step { idleLED with flash_block := ⟨false⟩ } pre)
            (LEDEv.extSet c)).duty
          = (List.foldl led_step { idleLED with flash_block := ⟨false⟩ } pre).duty) ∧
    (run_with_external idleLED [LEDEv.seqStep ⟨255, 0, 0⟩, LEDEv.extSet ⟨7, 8, 9⟩]).duty =
      ((extColors [LEDEv.seqStep ⟨255, 0, 0⟩, LEDEv.extSet ⟨7, 8, 9⟩]).getLast?).elim
        (((seqColors [LEDEv.seqStep ⟨255, 0, 0⟩, LEDEv.extSet ⟨7, 8, 9⟩]).getLast?).elim
          idleLED.duty (applyPWM idleLED.common idleLED.duty))
        (applyPWM idleLED.common idleLED.duty)) :=
  ⟨rfl, C4_pending_color_semantics idleLED
    [LEDEv.seqStep ⟨255, 0, 0⟩, LEDEv.extSet ⟨7, 8, 9⟩] rfl⟩

/-- For a `'dist'`-mode, `'dist'`-type wheel, the threshold block always
succeeds: the accumulator grows by the batch magnitude and the trigger
fires exactly when the new total strictly exceeds the threshold (the block
runs regardless of the arm flag — its guard tests Event truthiness). -/
theorem thresh_block_dist (sq : ℚ → ℚ) (w : WheelState) (mv : List Move)
    (hmode : w.mode = "dist") (htype : w.thresh_type = "dist") :
    ∃ w1 : WheelState,
      thresh_block sq w mv
        = .ok (w1, decide (w.thresh < w.thresh_val
            + sq (((sumVel mv "REL_X" : Int) : ℚ) ^ 2 + ((sumVel mv "REL_Y" : Int) : ℚ) ^ 2))) ∧
      w1.mode = "dist" ∧ w1.thresh_type = "dist" ∧ w1.thresh = w.thresh ∧
      w1.update_dur = w.update_dur ∧
      w1.thresh_val = w.thresh_val
            + sq (((sumVel mv "REL_X" : Int) : ℚ) ^ 2 + ((sumVel mv "REL_Y" : Int) : ℚ) ^ 2) := by
  generalize hmag :
    sq (((sumVel mv "REL_X" : Int) : ℚ) ^ 2 + ((sumVel mv "REL_Y" : Int) : ℚ) ^ 2) = mag
  have hcm : calc_move sq mv w.thresh_type = .ok mag := by
    rw [htype]
    simp only [calc_move]
    simp [hmag]
  have hct : check_thresh sq w mv
      = .ok ({ w with thresh_val := w.thresh_val + mag },
             decide (w.thresh < w.thresh_val + mag)) := by
    unfold check_thresh
    rw [hmode, hcm]
    simp [Except.map]
  unfold thresh_block
  rw [hct]
  simp only [pyTruthyEvent, if_true]
  cases hd : decide (w.thresh < w.thresh_val + mag) with
  | false =>
    refine ⟨{ w with thresh_val := w.thresh_val + mag },
      by simp, by simp [hmode], by simp [htype], rfl, rfl, rfl⟩
  | true =>
    refine ⟨{ thresh_trig { w with thresh_val := w.thresh_val + mag } with
        measure_evt := ⟨false⟩ },
      by simp, by simp [thresh_trig, hmode], by simp [thresh_trig, htype],
      by simp [thresh_trig], by simp [thresh_trig], by simp [thresh_trig]⟩

/-- The telemetry block never raises (the per-axis `calc_move` calls use
the fixed types `'y'`/`'x'`), passes the fired flag through, and keeps the
wheel state. -/
theorem telemetry_block_ok (sq : ℚ → ℚ) (w : WheelState) (moves : List Move)
    (lu now : ℚ) (fired : Bool) :
    ∃ s1 : RecordState, ∃ tel : Option Telemetry,
      telemetry_block sq w moves lu now fired = .ok (s1, ⟨tel, fired⟩) ∧ s1.w = w := by
  unfold telemetry_block
  by_cases h : now - lu > w.update_dur
  · rw [if_pos h]
    simp [calc_move]
  · rw [if_neg h]
    exact ⟨_, _, rfl, rfl⟩

/-- `batch_mag` unfolded: the Euclidean magnitude of a parsed batch. -/
theorem batch_mag_eq (sq : ℚ → ℚ) (es : List RawEvent) :
    batch_mag sq es
      = sq (((sumVel (parse_events es) "REL_X" : Int) : ℚ) ^ 2
          + ((sumVel (parse_events es) "REL_Y" : Int) : ℚ) ^ 2) := by
  simp [batch_mag, calc_move, Except.toOption]

/-- One `_record` iteration of a `'dist'`/`'dist'` wheel: never raises,
adds the batch magnitude to the accumulator, and fires exactly when the
new total strictly exceeds the threshold. -/
theorem record_step_dist (sq : ℚ → ℚ) (s : RecordState) (es : List RawEvent) (t : ℚ)
    (hmode : s.w.mode = "dist") (htype : s.w.thresh_type = "dist") :
    ∃ s1 out, record_step sq s es t = .ok (s1, out) ∧
      out.fired = decide (s.w.thresh < s.w.thresh_val + batch_mag sq es) ∧
      s1.w.mode = "dist" ∧ s1.w.thresh_type = "dist" ∧ s1.w.thresh = s.w.thresh ∧
      s1.w.thresh_val = s.w.thresh_val + batch_mag sq es := by
  rw [batch_mag_eq sq es]
  obtain ⟨w1, hw1, hm, ht, hth, hud, htv⟩ :=
    thresh_block_dist sq s.w (parse_events es) hmode htype
  obtain ⟨s1, tel, hs1, hsw⟩ :=
    telemetry_block_ok sq w1 (s.moves ++ parse_events es) s.last_update t
      (decide (s.w.thresh < s.w.thresh_val
        + sq (((sumVel (parse_events es) "REL_X" : Int) : ℚ) ^ 2
            + ((sumVel (parse_events es) "REL_Y" : Int) : ℚ) ^ 2)))
  refine ⟨s1, ⟨tel, _⟩, ?_, rfl, ?_, ?_, ?_, ?_⟩
  · unfold record_step
    rw [hw1]
    exact hs1
  · rw [hsw]; exact hm
  · rw [hsw]; exact ht
  · rw [hsw]; exact hth
  · rw [hsw]; exact htv

/-- A scan is its seed followed by its own tail. -/
theorem scanl_eq_head_tail (l : List ℚ) (b : ℚ) :
    l.scanl (· + ·) b = b :: (l.scanl (· + ·) b).tail := by
  cases l <;> simp [List.scanl]

/-- A full `'dist'`/`'dist'` run: iteration `i` fires exactly when the
running magnitude total after batch `i` strictly exceeds the threshold —
independently of arming, and with no reset after a fire. -/
theorem record_run_dist (sq : ℚ → ℚ) (s : RecordState) (inputs : List (List RawEvent × ℚ))
    (hmode : s.w.mode = "dist") (htype : s.w.thresh_type = "dist") :
    fired_list (record_run sq s inputs) =
      some ((((inputs.map (fun p => batch_mag sq p.1)).scanl (· + ·) s.w.thresh_val).tail).map
        (fun c => decide (s.w.thresh < c))) := by
  induction inputs generalizing s with
  | nil => simp [record_run, fired_list]
  | cons p rest ih =>
    obtain ⟨es, t⟩ := p
    obtain ⟨s1, out, hstep, hfired, hm, ht, hth, htv⟩ := record_step_dist sq s es t hmode htype
    have ihh := ih s1 hm ht
    unfold record_run
    rw [show record_loop_cond s.w = true from rfl, if_pos rfl, hstep]
    dsimp only
    cases hrun : record_run sq s1 rest with
    | error e =>
      have hnone : fired_list (.error e : Except String (RecordState × List StepOut)) = none := rfl
      rw [hrun, hnone] at ihh
      exact Option.noConfusion ihh
    | ok pr =>
      obtain ⟨s2, outs⟩ := pr
      rw [hrun] at ihh
      dsimp only [fired_list] at ihh ⊢
      simp only [Option.some.injEq] at ihh
      simp only [List.map_cons, List.scanl_cons, List.tail_cons]
      rw [scanl_eq_head_tail]
      simp only [List.singleton_append, List.tail_cons, List.map_cons, Option.some.injEq,
        List.cons.injEq]
      constructor
      · rw [hfired]
      · rw [ihh, hth, htv]

/-- Claim C3 (amended): an armed `'dist'` wheel with threshold 50 fires at
exactly those batches after which the running total of batch magnitudes
*strictly* exceeds 50 — so the first fire is at the first batch whose
total exceeds (not merely reaches) 50, and every later batch above 50
fires again (evaluation is not stopped by the disarm that accompanies a
fire, because the arm guard tests Event-object truthiness). -/
theorem C3_dist_fire_pattern (sq : ℚ → ℚ) (s : RecordState)
    (inputs : List (List RawEvent × ℚ))
    (_harmed : s.w.measure_evt.isSet = true)
    (hmode : s.w.mode = "dist") (htype : s.w.thresh_type = "dist")
    (hthresh : s.w.thresh = 50) (hval : s.w.thresh_val = 0) :
    fired_list (record_run sq s inputs) =
      some ((cum_sums (inputs.map (fun p => batch_mag sq p.1))).map
        (fun c => decide (50 < c))) := by
  have h := record_run_dist sq s inputs hmode htype
  rw [hval, hthresh] at h
  simpa [cum_sums] using h

/-- Witness for C3 on the armed wheel `c3State` with a single batch of
magnitude 60. -/
theorem C3_dist_fire_pattern_witness :
    c3State.w.measure_evt.isSet = true ∧ c3State.w.mode = "dist" ∧
    c3State.w.thresh_type = "dist" ∧ c3State.w.thresh = 50 ∧ c3State.w.thresh_val = 0 ∧
    fired_list (record_run ratSqrtPS c3State [([⟨60, "REL_X", 0⟩], 0)]) =
      some ((cum_sums ([([⟨60, "REL_X", 0⟩], (0 : ℚ))].map
        (fun p => batch_mag ratSqrtPS p.1))).map (fun c => decide (50 < c))) :=
  ⟨rfl, rfl, rfl, rfl, rfl,
    C3_dist_fire_pattern ratSqrtPS c3State [([⟨60, "REL_X", 0⟩], 0)] rfl rfl rfl rfl rfl⟩

end Autopilot
